import Mathlib

/-!
Verification of the search-volume normalization and share-of-volume pipeline
of `src/app.py` (Marketing Miner share-of-volume dashboard).

The development shallowly embeds the two core pieces of the script:

* `process_mm_response` (app.py lines 183-281): the Response Normalizer that
  turns a decoded JSON payload into `(keyword, date, volume)` records;
* the Share-of-Volume Calculator (app.py lines 352-374): pivot the records
  into a month-by-keyword matrix, filter by an inclusive month range,
  compute per-row totals and percentage shares.

Python values that can sit in a payload cell are modelled by `PyVal`;
pandas `DataFrame`s are modelled by the record list together with the
derived index / column / cell functions (`pivotIndex`, `pivotCols`,
`cellVolume`, `totalVolume`, `shareCell`).  Exceptions raised and caught in
the script are modelled with `Option` / `Except`.
-/

namespace SoV

/-- A Python value as it can appear in a payload cell.
`vint` covers Python `int`, `vstr` covers `str`.  `vother` covers every
other runtime value (floats, bools, `None`, lists, dicts): for those the
guard `isinstance(volume, (int, float, str)) and str(volume).replace('-','').isdigit()`
on app.py line 248 is always false — a float's `str()` always contains a
`.`, an `e`, or letters (`inf`, `nan`), `str(True)`/`str(False)` are
letters, and non-`int`/`float`/`str` values fail the `isinstance` test —
so they all coerce to volume 0, which is how `vother` is treated below. -/
inductive PyVal where
  | vint (n : Int)
  | vstr (s : String)
  | vother
deriving DecidableEq

/-- A `datetime` date as produced by `datetime(year, month_num, 1)`
(app.py line 245) and as supplied by the UI date pickers for the range
bounds (which carry an arbitrary day-of-month). -/
structure Date where
  year : Nat
  month : Nat
  day : Nat
deriving DecidableEq

/-- One row of the long-format DataFrame built on app.py lines 250-254:
`{'Keyword': keyword_name, 'Date': date_obj, 'Search Volume': volume_int}`. -/
structure VolumeRecord where
  keyword : String
  date : Date
  volume : Int
deriving DecidableEq

/-- Python `str.isdigit` restricted to ASCII digits (the payloads at hand
are ASCII): true iff the string is nonempty and all characters are digits. -/
def pyIsDigit (s : String) : Bool :=
  !s.data.isEmpty && s.data.all Char.isDigit

/-- `str.replace('-', '')` for the single character `-`: removing every
occurrence of a one-character needle is exactly filtering it out. -/
def pyStripMinus (s : String) : String :=
  String.mk (s.data.filter (fun c => c ≠ '-'))

/-- Value of a digit string, most significant digit first. -/
def digitsToNat (l : List Char) : Nat :=
  l.foldl (fun acc c => acc * 10 + (c.toNat - '0'.toNat)) 0

/-- Python `int(s)` on a string: an optional single leading sign followed by
at least one digit parses to the signed value; anything else raises
`ValueError`, modelled as `none`.  (CPython also strips whitespace and
allows `_` separators between digits; no payload in this program carries
those, so they are not modelled.) -/
def pyParseInt (s : String) : Option Int :=
  match s.data with
  | [] => none
  | '-' :: rest =>
      if !rest.isEmpty && rest.all Char.isDigit then some (-(digitsToNat rest : Int)) else none
  | '+' :: rest =>
      if !rest.isEmpty && rest.all Char.isDigit then some ((digitsToNat rest : Int)) else none
  | l => if l.all Char.isDigit then some ((digitsToNat l : Int)) else none

/-- app.py line 248:
`volume_int = int(volume) if isinstance(volume, (int, float, str)) and str(volume).replace('-', '').isdigit() else 0`.
`none` models `int(volume)` raising `ValueError` inside the guarded branch
(possible for strings like `"5-5"` whose minus-stripped form is all digits
but which `int` cannot parse); the raise is caught by the per-cell handler.
For a Python `int` `n`, `str(n)` is an optional sign followed by its
decimal digits, so the minus-stripped form is always all digits and
`int(n) = n`: the guard passes and the branch is the identity.
For `vother` see the `PyVal` doc comment: the guard is always false. -/
def volumeInt : PyVal → Option Int
  | .vint n => some n
  | .vstr s => if pyIsDigit (pyStripMinus s) then pyParseInt s else some 0
  | .vother => some 0

/-- The body of the per-cell `try` block, app.py lines 230-258, for one
`(month_str, volume)` item of `monthly_sv`, given the run-time calendar
year `cy` and month `cm` (`datetime.now().year` / `.month`).
`none` models the `except (ValueError, TypeError): continue` path:
`int(month_str)` failing, `datetime(year, month_num, 1)` rejecting a month
outside 1..12, or `int(volume)` failing inside the guarded branch.
(`datetime` also requires `1 <= year <= 9999`; `year` here is the wall
clock year or its predecessor, which never leaves that window at run time,
so the year bound is not modelled.) -/
def processCell (cy cm : Nat) (kw : String) (cell : String × PyVal) : Option VolumeRecord :=
  match pyParseInt cell.1 with
  | none => none
  | some m =>
    let year : Nat := if m ≤ (cm : Int) then cy else cy - 1
    if 1 ≤ m ∧ m ≤ 12 then
      match volumeInt cell.2 with
      | none => none
      | some v => some ⟨kw, ⟨year, m.toNat, 1⟩, v⟩
    else none

/-- One element of the payload's `data` list.  `dict keyword monthly_sv`
models a JSON object with its optional `keyword` field and its
`monthly_sv` mapping (absent modelled as `[]`; app.py line 220 defaults it
to `{}`); `nonDict` models any non-object element, skipped on line 212.
A `monthly_sv` that is present but not an object yields no records (the
`isinstance(monthly_data, dict)` test on line 229); that shape behaves
exactly like an empty mapping here and is not modelled separately. -/
inductive DataItem where
  | dict (keyword : Option String) (monthly_sv : List (String × PyVal))
  | nonDict
deriving DecidableEq

/-- app.py lines 211-258 for a single `data` element:
`keyword_name = item.get('keyword', 'Unknown')`, skip if `monthly_sv` is
empty, else process each `(month_str, volume)` item, skipping cells whose
`try` block raised. -/
def processItem (cy cm : Nat) : DataItem → List VolumeRecord
  | .nonDict => []
  | .dict kw monthly =>
    if monthly.isEmpty then []
    else monthly.filterMap (processCell cy cm (kw.getD "Unknown"))

/-- The decoded top-level JSON payload: `json_data.get('status')`,
`json_data.get('message', ...)` and `json_data.get('data', [])`
(an absent `data` is modelled as `[]`, matching the default). -/
structure Payload where
  status : Option String
  message : Option String
  data : List DataItem

/-- The Normalizer's failure: app.py line 195 raises
`Exception(f"API vrátilo chybu: {error_message}")`. -/
inductive NormError where
  | upstream (msg : String)

/-- Chronological order on dates, as pandas `sort_values('Date')` orders
`datetime` values. -/
def dateLE (a b : Date) : Bool :=
  decide (a.year < b.year ∨ (a.year = b.year ∧
    (a.month < b.month ∨ (a.month = b.month ∧ a.day ≤ b.day))))

/-- Record order used by `df.sort_values('Date')` on app.py line 279. -/
def recDateLE (a b : VolumeRecord) : Bool := dateLE a.date b.date

/-- Insert into a sorted list, before the first element it is `le` to. -/
def insertSorted {α : Type} (le : α → α → Bool) (a : α) : List α → List α
  | [] => [a]
  | b :: t => if le a b then a :: b :: t else b :: insertSorted le a t

/-- Insertion sort.  Models the sorts performed by pandas
(`sort_values('Date')`, and the ascending index/column order produced by
`pivot`); pandas leaves the relative order of ties unspecified
(`quicksort`), and no property below depends on tie order. -/
def sortBy {α : Type} (le : α → α → Bool) : List α → List α
  | [] => []
  | a :: t => insertSorted le a (sortBy le t)

/-- app.py lines 183-281, `process_mm_response`, for a run at calendar
year `cy` and month `cm`.  Faithful to the source's control flow: the
status check on line 193 raises on any status other than `'success'`
(modelled as the `else` arm); empty `data` returns an empty frame
(line 200-202); an empty record list returns an empty frame (line 273-275);
otherwise the records are sorted by date (line 279).  The Streamlit
diagnostics (`debug_info`, `st.warning`, `st.success`, `st.error`) and the
`processed_keywords` list are display-only and not modelled. -/
def process_mm_response (cy cm : Nat) (p : Payload) : Except NormError (List VolumeRecord) :=
  if p.status = some "success" then
    if p.data.isEmpty then .ok []
    else
      if (p.data.flatMap (processItem cy cm)).isEmpty then .ok []
      else .ok (sortBy recDateLE (p.data.flatMap (processItem cy cm)))
  else .error (.upstream ("API vrátilo chybu: " ++ p.message.getD "Neznáma chyba API"))

/-! ## The Share-of-Volume Calculator (app.py lines 349-374) -/

/-- The `(index, columns)` key pairs handed to
`long_df.pivot(index='Date', columns='Keyword', values='Search Volume')`
(app.py line 353); `pivot` raises
`ValueError: Index contains duplicate entries, cannot reshape` exactly
when these pairs are not pairwise distinct. -/
def pivotKeys (records : List VolumeRecord) : List (Date × String) :=
  records.map fun r => (r.date, r.keyword)

/-- The row index of `wide_df`: the distinct record dates, ascending. -/
def pivotIndex (records : List VolumeRecord) : List Date :=
  sortBy dateLE (records.map (fun r => r.date)).dedup

/-- Lexicographic order on character lists by code point. -/
def charListLE : List Char → List Char → Bool
  | [], _ => true
  | _ :: _, [] => false
  | a :: as, b :: bs =>
    if a.toNat < b.toNat then true
    else if a.toNat = b.toNat then charListLE as bs
    else false

/-- Lexicographic string order, pandas' ascending column order. -/
def stringLE (a b : String) : Bool := charListLE a.data b.data

/-- The keyword columns of `wide_df`: the distinct keywords, ascending.
These are also `available_keywords` of app.py line 370 (every column of
`wide_df_filtered` except the later-appended `'Total Volume'`). -/
def pivotCols (records : List VolumeRecord) : List String :=
  sortBy stringLE (records.map (fun r => r.keyword)).dedup

/-- One cell of `wide_df` after `.fillna(0)` (app.py line 353): the volume
of the record with this `(date, keyword)` key, or 0 when no record has it.
When the duplicate check passed there is at most one such record. -/
def cellVolume (records : List VolumeRecord) (d : Date) (kw : String) : Int :=
  match records.find? (fun r => decide (r.date = d ∧ r.keyword = kw)) with
  | some r => r.volume
  | none => 0

/-- The `'Total Volume'` value of row `d`
(`wide_df_filtered.sum(axis=1)`, app.py line 364): the sum of the row's
keyword-column cells. -/
def totalVolume (records : List VolumeRecord) (d : Date) : Int :=
  ((pivotCols records).map (cellVolume records d)).sum

/-- `to_period('M')` comparison (app.py line 358): month-granularity
order on dates — compare `(year, month)`, ignore the day. -/
def periodLE (a b : Date) : Bool :=
  decide (a.year < b.year ∨ (a.year = b.year ∧ a.month ≤ b.month))

/-- The row-selection predicate of app.py line 358:
`(index.to_period('M') >= start.to_period('M')) & (index.to_period('M') <= end.to_period('M'))`. -/
def inRange (s e d : Date) : Bool := periodLE s d && periodLE d e

/-- The row index of `wide_df_filtered` (app.py line 358). -/
def filteredIndex (records : List VolumeRecord) (s e : Date) : List Date :=
  (pivotIndex records).filter (fun d => inRange s e d)

/-- One cell of `sov_df` (app.py lines 372-374):
`(row[kw] / row['Total Volume']) * 100 if row['Total Volume'] > 0 else 0`.
Python float division is modelled exactly over `ℚ`. -/
def shareCell (records : List VolumeRecord) (d : Date) (kw : String) : ℚ :=
  if 0 < totalVolume records d then
    ((cellVolume records d kw : ℚ) / (totalVolume records d : ℚ)) * 100
  else 0

/-- The distinguishable failure modes of the Calculator stage of the
script: `noData` is the `long_df.empty` branch (app.py line 349),
`duplicateKey` is `pivot` raising on duplicate `(Date, Keyword)` keys
(line 353, caught by the top-level handler on line 534), `emptyResult` is
the `wide_df_filtered.empty` branch (line 360). -/
inductive CalcError where
  | noData
  | duplicateKey
  | emptyResult

/-- The Calculator's control flow, app.py lines 349-374, in source order:
empty-input check, pivot (raising on duplicate keys), month-range filter
with its empty check.  On success it yields the filtered row index; the
matrices over that index are `cellVolume` (absolute volumes) and
`shareCell` (percentage shares) at each index row and `pivotCols` column. -/
def runCalculator (records : List VolumeRecord) (s e : Date) : Except CalcError (List Date) :=
  if records = [] then .error .noData
  else if (pivotKeys records).Nodup then
    if filteredIndex records s e = [] then .error .emptyResult
    else .ok (filteredIndex records s e)
  else .error .duplicateKey

/-! ## Concrete inputs used in scenarios, counterexamples and witnesses -/

/-- Scenario A of the spec: fingo 100, hyponamiru 300 in 2024-01. -/
def recsA : List VolumeRecord :=
  [⟨"fingo", ⟨2024, 1, 1⟩, 100⟩, ⟨"hyponamiru", ⟨2024, 1, 1⟩, 300⟩]

/-- A payload whose two entries lack the `keyword` field. -/
def payloadU : Payload :=
  ⟨some "success", none, [.dict none [("1", .vint 10)], .dict none [("2", .vint 20)]]⟩

/-- The records the Normalizer produces from `payloadU` at run time 2024-05. -/
def recsU : List VolumeRecord :=
  [⟨"Unknown", ⟨2024, 1, 1⟩, 10⟩, ⟨"Unknown", ⟨2024, 2, 1⟩, 20⟩]

/-- A payload carrying a negative volume cell next to a positive one. -/
def payloadNeg : Payload :=
  ⟨some "success", none, [.dict (some "a") [("1", .vint (-5))], .dict (some "b") [("1", .vint 10)]]⟩

/-- The records the Normalizer produces from `payloadNeg` at run time 2024-05. -/
def recsNeg : List VolumeRecord :=
  [⟨"a", ⟨2024, 1, 1⟩, -5⟩, ⟨"b", ⟨2024, 1, 1⟩, 10⟩]

/-- Two records sharing the `(keyword, month)` key `("a", 2024-01)`. -/
def recsDup : List VolumeRecord :=
  [⟨"a", ⟨2024, 1, 1⟩, 5⟩, ⟨"a", ⟨2024, 1, 1⟩, 7⟩]

/-! ## Helper lemmas -/

theorem mem_insertSorted {α : Type} (le : α → α → Bool) (a x : α) (l : List α) :
    x ∈ insertSorted le a l ↔ x = a ∨ x ∈ l := by
  induction l with
  | nil => simp [insertSorted]
  | cons b t ih =>
    unfold insertSorted
    cases h : le a b
    · simp [ih]
      tauto
    · simp

theorem mem_sortBy {α : Type} (le : α → α → Bool) (x : α) (l : List α) :
    x ∈ sortBy le l ↔ x ∈ l := by
  induction l with
  | nil => simp [sortBy]
  | cons a t ih => simp [sortBy, mem_insertSorted, ih]

theorem mem_pivotIndex {records : List VolumeRecord} {d : Date} :
    d ∈ pivotIndex records ↔ ∃ r ∈ records, r.date = d := by
  simp [pivotIndex, mem_sortBy, List.mem_dedup]

theorem mem_pivotCols {records : List VolumeRecord} {kw : String} :
    kw ∈ pivotCols records ↔ ∃ r ∈ records, r.keyword = kw := by
  simp [pivotCols, mem_sortBy, List.mem_dedup]

/-- Every record a cell produces carries the entry's keyword. -/
theorem processCell_keyword {cy cm : Nat} {kw : String} {c : String × PyVal}
    {r : VolumeRecord} (h : processCell cy cm kw c = some r) : r.keyword = kw := by
  unfold processCell at h
  rcases hp : pyParseInt c.1 with _ | m <;> rw [hp] at h
  · exact Option.noConfusion h
  · simp only at h
    by_cases hm : 1 ≤ m ∧ m ≤ 12
    · rw [if_pos hm] at h
      rcases hv : volumeInt c.2 with _ | v <;> rw [hv] at h
      · exact Option.noConfusion h
      · cases Option.some.inj h
        rfl
    · rw [if_neg hm] at h
      exact Option.noConfusion h

theorem cellVolume_nonneg {records : List VolumeRecord} {d : Date} {kw : String}
    (h : ∀ r ∈ records, 0 ≤ r.volume) : 0 ≤ cellVolume records d kw := by
  unfold cellVolume
  split
  · rename_i r hf
    exact h r (List.mem_of_find?_eq_some hf)
  · exact le_refl 0

theorem totalVolume_nonneg {records : List VolumeRecord} {d : Date}
    (h : ∀ r ∈ records, 0 ≤ r.volume) : 0 ≤ totalVolume records d := by
  unfold totalVolume
  apply List.sum_nonneg
  intro x hx
  obtain ⟨kw, _, rfl⟩ := List.mem_map.1 hx
  exact cellVolume_nonneg h

theorem cellVolume_le_total {records : List VolumeRecord} {d : Date} {kw : String}
    (h : ∀ r ∈ records, 0 ≤ r.volume) :
    cellVolume records d kw ≤ totalVolume records d := by
  rcases hf : records.find? (fun r => decide (r.date = d ∧ r.keyword = kw)) with _ | r
  · have hcv : cellVolume records d kw = 0 := by unfold cellVolume; rw [hf]
    rw [hcv]
    exact totalVolume_nonneg h
  · have hmemr : r ∈ records := List.mem_of_find?_eq_some hf
    have hp : r.date = d ∧ r.keyword = kw := by
      have hpr := List.find?_some hf
      simpa using hpr
    have hkw : kw ∈ pivotCols records := mem_pivotCols.2 ⟨r, hmemr, hp.2⟩
    have hcv : cellVolume records d kw = r.volume := by unfold cellVolume; rw [hf]
    rw [hcv]
    have hmem : r.volume ∈ (pivotCols records).map (cellVolume records d) :=
      List.mem_map.2 ⟨kw, hkw, hcv⟩
    refine List.single_le_sum ?_ _ hmem
    intro x hx
    obtain ⟨kw2, _, rfl⟩ := List.mem_map.1 hx
    exact cellVolume_nonneg h

theorem sum_map_div_mul (l : List String) (f : String → ℚ) (T : ℚ) :
    (l.map fun x => f x / T * 100).sum = (l.map f).sum / T * 100 := by
  induction l with
  | nil => simp
  | cons a t ih => simp [ih, add_div, add_mul]

theorem sum_map_intCast (l : List String) (f : String → Int) :
    (l.map fun x => ((f x : Int) : ℚ)).sum = (((l.map f).sum : Int) : ℚ) := by
  induction l with
  | nil => simp
  | cons a t ih => simp [ih]

/-- Full characterization of a successful cell parse. -/
theorem processCell_eq_some {cy cm : Nat} {kw ms : String} {v : PyVal} {m : Int} {vol : Int}
    (hp : pyParseInt ms = some m) (hm1 : 1 ≤ m) (hm2 : m ≤ 12)
    (hv : volumeInt v = some vol) :
    processCell cy cm kw (ms, v) =
      some ⟨kw, ⟨if m ≤ (cm : Int) then cy else cy - 1, m.toNat, 1⟩, vol⟩ := by
  unfold processCell
  rw [hp]
  simp only [hm1, hm2, and_self, if_true, hv]

/-! ## Claim theorems -/

/-- C1, counterexample: for the sequence `recsDup`, which contains two
records with the same `(keyword, month)` pair `("a", 2024-01)`, the pivot
step does not apply last-write-wins without raising: it fails with the
duplicate-key error (pandas `pivot` raises `ValueError` on a duplicated
`(Date, Keyword)` index). -/
theorem C1_counterexample :
    (recsDup.map fun r => (r.keyword, r.date.year, r.date.month)) =
      [("a", 2024, 1), ("a", 2024, 1)] ∧
    runCalculator recsDup ⟨2024, 1, 1⟩ ⟨2024, 12, 1⟩ = .error .duplicateKey :=
  ⟨rfl, rfl⟩

/-- C1, amended: for every VolumeRecord sequence containing two records
with the same `(keyword, month)` pair (duplicated pivot keys), the
Calculator's pivot step rejects the input with an error — pandas `pivot`
raises on duplicate keys — instead of applying last-write-wins. -/
theorem C1_pivot_rejects_duplicates :
    ∀ (records : List VolumeRecord) (s e : Date), ¬ (pivotKeys records).Nodup →
      runCalculator records s e = .error .duplicateKey := by
  intro records s e h
  have hne : ¬ records = [] := by
    intro hnil
    subst hnil
    exact h (by simp [pivotKeys])
  unfold runCalculator
  rw [if_neg hne, if_neg h]

/-- C1, witness for the amended theorem at `recsDup`. -/
theorem C1_witness :
    runCalculator recsDup ⟨2024, 2, 1⟩ ⟨2024, 11, 1⟩ = .error .duplicateKey :=
  C1_pivot_rejects_duplicates recsDup ⟨2024, 2, 1⟩ ⟨2024, 11, 1⟩ (by decide)

/-- C2, counterexample: the volume value `-5` is not a parseable
non-negative integer, yet the Normalizer does not record volume 0 for the
cell: the guard `str(volume).replace('-', '').isdigit()` passes for a
negative integer and `int(volume)` keeps its negative value, so the cell
is recorded with volume `-5`. -/
theorem C2_counterexample :
    processCell 2024 5 "a" ("1", .vint (-5)) = some ⟨"a", ⟨2024, 1, 1⟩, -5⟩ ∧
    volumeInt (.vint (-5)) ≠ some 0 :=
  ⟨rfl, by decide⟩

/-- C2, amended: a volume value failing the digit guard (every non-numeric
string, e.g. `"-"` or `"n/a"`, and every non-int/float/str value) is
coerced to 0 for that cell without raising, and sibling cells are
unaffected (processing of the remaining cells continues, here shown for
the cell list tail); however a value that parses as an integer — including
a negative one — is recorded with its parsed, possibly negative, value
rather than 0. -/
theorem C2_bad_cell_coerced_to_zero :
    (∀ s : String, pyIsDigit (pyStripMinus s) = false → volumeInt (.vstr s) = some 0) ∧
    volumeInt (.vstr "-") = some 0 ∧
    volumeInt (.vstr "n/a") = some 0 ∧
    volumeInt .vother = some 0 ∧
    (∀ n : Int, volumeInt (.vint n) = some n) ∧
    (∀ (cy cm : Nat) (kw ms : String) (m : Int) (rest : List (String × PyVal)),
      pyParseInt ms = some m → 1 ≤ m → m ≤ 12 →
      ((ms, PyVal.vstr "n/a") :: rest).filterMap (processCell cy cm kw) =
        ⟨kw, ⟨if m ≤ (cm : Int) then cy else cy - 1, m.toNat, 1⟩, 0⟩ ::
          rest.filterMap (processCell cy cm kw)) := by
  refine ⟨?_, by decide, by decide, rfl, fun n => rfl, ?_⟩
  · intro s h
    simp [volumeInt, h]
  · intro cy cm kw ms m rest hp hm1 hm2
    have hc : processCell cy cm kw (ms, PyVal.vstr "n/a") =
        some ⟨kw, ⟨if m ≤ (cm : Int) then cy else cy - 1, m.toNat, 1⟩, 0⟩ :=
      processCell_eq_some hp hm1 hm2 (by decide)
    simp [List.filterMap_cons, hc]

/-- C2, witness for the amended theorem: `"n/a"` in month `"2"` coerces to
a volume-0 record and the sibling cell is still processed. -/
theorem C2_witness :
    volumeInt (.vstr "x7") = some 0 ∧
    (("2", PyVal.vstr "n/a") :: [("3", PyVal.vint 4)]).filterMap (processCell 2024 5 "kw") =
      ⟨"kw", ⟨2024, 2, 1⟩, 0⟩ :: [("3", PyVal.vint 4)].filterMap (processCell 2024 5 "kw") := by
  refine ⟨C2_bad_cell_coerced_to_zero.1 "x7" (by decide), ?_⟩
  have h := C2_bad_cell_coerced_to_zero.2.2.2.2.2 2024 5 "kw" "2" 2
    [("3", PyVal.vint 4)] (by decide) (by decide) (by decide)
  exact h

/-- C3: each share cell is `(volume / row total) * 100` when the row total
is positive and exactly 0 when the total is 0 (no NaN, no error), and on
Scenario A's records with range `[2024-01, 2024-01]` the share row is
`fingo ↦ 25`, `hyponamiru ↦ 75`. -/
theorem C3_share_formula :
    (∀ (records : List VolumeRecord) (d : Date) (kw : String),
      0 < totalVolume records d →
      shareCell records d kw =
        ((cellVolume records d kw : ℚ) / (totalVolume records d : ℚ)) * 100) ∧
    (∀ (records : List VolumeRecord) (d : Date) (kw : String),
      totalVolume records d = 0 → shareCell records d kw = 0) ∧
    (runCalculator recsA ⟨2024, 1, 1⟩ ⟨2024, 1, 1⟩ = .ok [⟨2024, 1, 1⟩] ∧
     shareCell recsA ⟨2024, 1, 1⟩ "fingo" = 25 ∧
     shareCell recsA ⟨2024, 1, 1⟩ "hyponamiru" = 75) := by
  refine ⟨?_, ?_, rfl, ?_, ?_⟩
  · intro records d kw h
    unfold shareCell
    rw [if_pos h]
  · intro records d kw h
    unfold shareCell
    rw [h]
    simp
  · have ht : totalVolume recsA ⟨2024, 1, 1⟩ = 400 := by decide
    have hc : cellVolume recsA ⟨2024, 1, 1⟩ "fingo" = 100 := by decide
    unfold shareCell
    rw [ht, hc]
    norm_num
  · have ht : totalVolume recsA ⟨2024, 1, 1⟩ = 400 := by decide
    have hc : cellVolume recsA ⟨2024, 1, 1⟩ "hyponamiru" = 300 := by decide
    unfold shareCell
    rw [ht, hc]
    norm_num

/-- C3, witness: the positive-total and zero-total cases evaluated at
concrete inputs. -/
theorem C3_witness :
    shareCell recsA ⟨2024, 1, 1⟩ "fingo" =
      ((cellVolume recsA ⟨2024, 1, 1⟩ "fingo" : ℚ) /
        (totalVolume recsA ⟨2024, 1, 1⟩ : ℚ)) * 100 ∧
    shareCell [⟨"z", ⟨2024, 3, 1⟩, 0⟩] ⟨2024, 3, 1⟩ "z" = 0 :=
  ⟨C3_share_formula.1 recsA ⟨2024, 1, 1⟩ "fingo" (by decide),
   C3_share_formula.2.1 [⟨"z", ⟨2024, 3, 1⟩, 0⟩] ⟨2024, 3, 1⟩ "z" (by decide)⟩

/-- C4, counterexample: the Normalizer can produce a record with a
negative volume (payload cell `-5` survives the digit guard, see C2), and
on such a sequence a ShareMatrix cell leaves `[0, 100]`: with volumes
`a ↦ -5`, `b ↦ 10` in 2024-01 the row total is 5 and the share of `a` is
`-100`. -/
theorem C4_counterexample :
    process_mm_response 2024 5 payloadNeg = .ok recsNeg ∧
    shareCell recsNeg ⟨2024, 1, 1⟩ "a" = -100 ∧
    ¬ (0 ≤ shareCell recsNeg ⟨2024, 1, 1⟩ "a") := by
  have ht : totalVolume recsNeg ⟨2024, 1, 1⟩ = 5 := by decide
  have hc : cellVolume recsNeg ⟨2024, 1, 1⟩ "a" = -5 := by decide
  have hs : shareCell recsNeg ⟨2024, 1, 1⟩ "a" = -100 := by
    unfold shareCell
    rw [ht, hc]
    norm_num
  refine ⟨rfl, hs, ?_⟩
  rw [hs]
  norm_num

/-- C4, amended: for every VolumeRecord sequence whose volumes are all
non-negative (which the Normalizer delivers whenever no payload cell
parses to a negative integer), every ShareMatrix cell lies in `[0, 100]`,
and every row with positive total has shares summing to exactly 100 (so in
particular within any floating-point tolerance). -/
theorem C4_share_bounds_and_row_sum :
    ∀ records : List VolumeRecord, (∀ r ∈ records, 0 ≤ r.volume) →
      (∀ (d : Date) (kw : String),
        0 ≤ shareCell records d kw ∧ shareCell records d kw ≤ 100) ∧
      (∀ d : Date, 0 < totalVolume records d →
        ((pivotCols records).map (shareCell records d)).sum = 100) := by
  intro records h
  constructor
  · intro d kw
    unfold shareCell
    split
    · rename_i hT
      have hv0 : 0 ≤ cellVolume records d kw := cellVolume_nonneg h
      have hvT : cellVolume records d kw ≤ totalVolume records d := cellVolume_le_total h
      have hTQ : (0 : ℚ) < ((totalVolume records d : Int) : ℚ) := by exact_mod_cast hT
      constructor
      · apply mul_nonneg _ (by norm_num)
        exact div_nonneg (by exact_mod_cast hv0) hTQ.le
      · have h1 : ((cellVolume records d kw : Int) : ℚ) / ((totalVolume records d : Int) : ℚ) ≤ 1 :=
          (div_le_one hTQ).2 (by exact_mod_cast hvT)
        calc ((cellVolume records d kw : Int) : ℚ) / ((totalVolume records d : Int) : ℚ) * 100
            ≤ 1 * 100 := by
              exact mul_le_mul_of_nonneg_right h1 (by norm_num)
          _ = 100 := one_mul 100
    · exact ⟨le_refl 0, by norm_num⟩
  · intro d hT
    have hTQ : ((totalVolume records d : Int) : ℚ) ≠ 0 := by
      have : (0 : ℚ) < ((totalVolume records d : Int) : ℚ) := by exact_mod_cast hT
      exact this.ne.symm
    have hfun : shareCell records d = fun kw =>
        ((cellVolume records d kw : Int) : ℚ) / ((totalVolume records d : Int) : ℚ) * 100 := by
      funext kw
      unfold shareCell
      rw [if_pos hT]
    rw [hfun, sum_map_div_mul, sum_map_intCast]
    have htv : ((pivotCols records).map (cellVolume records d)).sum = totalVolume records d := rfl
    rw [htv, div_self hTQ, one_mul]

/-- C4, witness for the amended theorem on Scenario A's records. -/
theorem C4_witness :
    (0 ≤ shareCell recsA ⟨2024, 1, 1⟩ "fingo" ∧ shareCell recsA ⟨2024, 1, 1⟩ "fingo" ≤ 100) ∧
    ((pivotCols recsA).map (shareCell recsA ⟨2024, 1, 1⟩)).sum = 100 :=
  ⟨(C4_share_bounds_and_row_sum recsA (by decide)).1 ⟨2024, 1, 1⟩ "fingo",
   (C4_share_bounds_and_row_sum recsA (by decide)).2 ⟨2024, 1, 1⟩ (by decide)⟩

/-- C5: when no record's month falls inside the (month-granularity) range,
the Calculator signals the empty-result condition — distinguishable by the
caller from a matrix of zeros — rather than fabricating a matrix.
(`records ≠ []` keeps the run on the Calculator path at all — an empty
record list is reported one step earlier as `noData`, app.py line 349 —
and duplicate-free pivot keys let the pivot succeed, app.py line 353.) -/
theorem C5_empty_range_signalled :
    ∀ (records : List VolumeRecord) (s e : Date), records ≠ [] →
      (pivotKeys records).Nodup →
      (∀ r ∈ records, inRange s e r.date = false) →
      runCalculator records s e = .error .emptyResult := by
  intro records s e hne hnd hout
  have hfi : filteredIndex records s e = [] := by
    unfold filteredIndex
    rw [List.filter_eq_nil_iff]
    intro d hd
    obtain ⟨r, hr, rfl⟩ := mem_pivotIndex.1 hd
    simp [hout r hr]
  unfold runCalculator
  rw [if_neg hne, if_pos hnd, if_pos hfi]

/-- C5, witness: a January-2024 record against an all-2025 range. -/
theorem C5_witness :
    runCalculator [⟨"a", ⟨2024, 1, 1⟩, 5⟩] ⟨2025, 3, 1⟩ ⟨2025, 4, 30⟩ = .error .emptyResult :=
  C5_empty_range_signalled [⟨"a", ⟨2024, 1, 1⟩, 5⟩] ⟨2025, 3, 1⟩ ⟨2025, 4, 30⟩
    (by decide) (by decide) (by decide)

/-- C6: the Normalizer fails — with the upstream-supplied message text —
exactly when the payload's status is absent or differs from `'success'`;
with a successful status and no data entries it returns the empty record
sequence without error. -/
theorem C6_status_gate :
    (∀ (cy cm : Nat) (p : Payload), p.status ≠ some "success" →
      process_mm_response cy cm p =
        .error (.upstream ("API vrátilo chybu: " ++ p.message.getD "Neznáma chyba API"))) ∧
    (∀ (cy cm : Nat) (p : Payload), p.status = some "success" → p.data = [] →
      process_mm_response cy cm p = .ok []) ∧
    (∀ (cy cm : Nat) (p : Payload),
      (∃ msg, process_mm_response cy cm p = .error (.upstream msg)) ↔
        p.status ≠ some "success") := by
  refine ⟨?_, ?_, ?_⟩
  · intro cy cm p h
    unfold process_mm_response
    rw [if_neg h]
  · intro cy cm p h1 h2
    unfold process_mm_response
    rw [if_pos h1, h2]
    simp
  · intro cy cm p
    constructor
    · rintro ⟨msg, hmsg⟩ hstat
      unfold process_mm_response at hmsg
      rw [if_pos hstat] at hmsg
      split at hmsg
      · exact Except.noConfusion hmsg
      · split at hmsg
        · exact Except.noConfusion hmsg
        · exact Except.noConfusion hmsg
    · intro hstat
      refine ⟨"API vrátilo chybu: " ++ p.message.getD "Neznáma chyba API", ?_⟩
      unfold process_mm_response
      rw [if_neg hstat]

/-- C6, witness: a failing status carries the upstream message `boom`; a
successful status with no entries yields the empty sequence. -/
theorem C6_witness :
    process_mm_response 2024 5 ⟨some "error", some "boom", []⟩ =
      .error (.upstream "API vrátilo chybu: boom") ∧
    process_mm_response 2024 5 ⟨some "success", none, []⟩ = .ok [] :=
  ⟨C6_status_gate.1 2024 5 ⟨some "error", some "boom", []⟩ (by simp),
   C6_status_gate.2.1 2024 5 ⟨some "success", none, []⟩ rfl rfl⟩

/-- C7: a month number `m` in 1..12 resolves to the current calendar year
when `m <= current_month` and to the previous calendar year otherwise; in
particular month `"11"` at current month 5 resolves to the previous year. -/
theorem C7_year_resolution :
    (∀ (cy cm : Nat) (kw ms : String) (v : PyVal) (m vol : Int),
      pyParseInt ms = some m → 1 ≤ m → m ≤ 12 → volumeInt v = some vol →
      processCell cy cm kw (ms, v) =
        some ⟨kw, ⟨if m ≤ (cm : Int) then cy else cy - 1, m.toNat, 1⟩, vol⟩) ∧
    (∀ (cy : Nat) (kw : String) (v : PyVal) (vol : Int), volumeInt v = some vol →
      processCell cy 5 kw ("11", v) = some ⟨kw, ⟨cy - 1, 11, 1⟩, vol⟩) := by
  refine ⟨?_, ?_⟩
  · intro cy cm kw ms v m vol hp h1 h2 hv
    exact processCell_eq_some hp h1 h2 hv
  · intro cy kw v vol hv
    have h : processCell cy 5 kw ("11", v) =
        some ⟨kw, ⟨if (11 : Int) ≤ ((5 : Nat) : Int) then cy else cy - 1, Int.toNat 11, 1⟩, vol⟩ :=
      processCell_eq_some (by decide) (by decide) (by decide) hv
    simpa using h

/-- C7, witness: month `"11"` at run time 2024-05 lands in 2023, month
`"4"` in 2024. -/
theorem C7_witness :
    processCell 2024 5 "k" ("11", PyVal.vint 7) = some ⟨"k", ⟨2023, 11, 1⟩, 7⟩ ∧
    processCell 2024 5 "k" ("4", PyVal.vint 9) = some ⟨"k", ⟨2024, 4, 1⟩, 9⟩ := by
  constructor
  · have h := C7_year_resolution.2 2024 "k" (PyVal.vint 7) 7 rfl
    simpa using h
  · have h := C7_year_resolution.1 2024 5 "k" "4" (PyVal.vint 9) 4 9 (by decide)
      (by decide) (by decide) rfl
    simpa using h

/-- C8: the month-range filter keeps exactly the matrix rows whose
`(year, month)` lies inclusively between the bounds' `(year, month)`; the
day-of-month of both the bounds and the row date is ignored (day-1
replacements leave the predicate unchanged), and a date in a boundary
month passes the corresponding bound whatever its day. -/
theorem C8_month_granularity_filter :
    (∀ (records : List VolumeRecord) (s e d : Date),
      d ∈ filteredIndex records s e ↔
        ((∃ r ∈ records, r.date = d) ∧ periodLE s d = true ∧ periodLE d e = true)) ∧
    (∀ s e d : Date, inRange s e d =
      inRange ⟨s.year, s.month, 1⟩ ⟨e.year, e.month, 1⟩ ⟨d.year, d.month, 1⟩) ∧
    (∀ s d : Date, s.year = d.year → s.month = d.month →
      periodLE s d = true ∧ periodLE d s = true) := by
  refine ⟨?_, ?_, ?_⟩
  · intro records s e d
    simp [filteredIndex, List.mem_filter, mem_pivotIndex, inRange, Bool.and_eq_true]
  · intro s e d
    rcases s with ⟨sy, sm, sd⟩
    rcases e with ⟨ey, em, ed⟩
    rcases d with ⟨dy, dm, dd⟩
    rfl
  · intro s d h1 h2
    constructor <;> simp [periodLE, h1, h2]

/-- C8, witness: a record dated the 15th of the boundary month 2024-01 is
kept for the bound "2024-01-31"; bounds and rows with day-of-month
replaced by 1 filter identically; equal `(year, month)` passes the
bound both ways. -/
theorem C8_witness :
    (⟨2024, 1, 15⟩ : Date) ∈
      filteredIndex [⟨"k", ⟨2024, 1, 15⟩, 5⟩] ⟨2024, 1, 31⟩ ⟨2024, 3, 1⟩ ∧
    inRange ⟨2024, 1, 15⟩ ⟨2024, 3, 2⟩ ⟨2024, 1, 7⟩ =
      inRange ⟨2024, 1, 1⟩ ⟨2024, 3, 1⟩ ⟨2024, 1, 1⟩ ∧
    periodLE ⟨2024, 5, 1⟩ ⟨2024, 5, 28⟩ = true := by
  refine ⟨?_, ?_, ?_⟩
  · exact (C8_month_granularity_filter.1 [⟨"k", ⟨2024, 1, 15⟩, 5⟩]
      ⟨2024, 1, 31⟩ ⟨2024, 3, 1⟩ ⟨2024, 1, 15⟩).2
      ⟨⟨⟨"k", ⟨2024, 1, 15⟩, 5⟩, by simp, rfl⟩, by decide, by decide⟩
  · exact C8_month_granularity_filter.2.1 ⟨2024, 1, 15⟩ ⟨2024, 3, 2⟩ ⟨2024, 1, 7⟩
  · exact (C8_month_granularity_filter.2.2 ⟨2024, 5, 1⟩ ⟨2024, 5, 28⟩ rfl rfl).1

/-- C9: a dict entry without a `keyword` field yields its records under
the literal keyword `'Unknown'` (never a rejection), and two keyword-less
entries end up merged in the single `'Unknown'` column of the pivot. -/
theorem C9_missing_keyword_unknown :
    (∀ (cy cm : Nat) (monthly : List (String × PyVal)) (r : VolumeRecord),
      r ∈ processItem cy cm (.dict none monthly) → r.keyword = "Unknown") ∧
    (process_mm_response 2024 5 payloadU = .ok recsU ∧
     pivotCols recsU = ["Unknown"] ∧
     runCalculator recsU ⟨2024, 1, 1⟩ ⟨2024, 2, 28⟩ = .ok [⟨2024, 1, 1⟩, ⟨2024, 2, 1⟩]) := by
  refine ⟨?_, rfl, rfl, rfl⟩
  intro cy cm monthly r hr
  unfold processItem at hr
  simp only at hr
  by_cases hme : monthly.isEmpty = true
  · rw [if_pos hme] at hr
    exact absurd hr (List.not_mem_nil r)
  · rw [if_neg hme] at hr
    obtain ⟨c, _, hc⟩ := List.mem_filterMap.1 hr
    exact processCell_keyword hc

/-- C9, witness for the universally quantified part. -/
theorem C9_witness :
    (⟨"Unknown", ⟨2024, 1, 1⟩, 10⟩ : VolumeRecord).keyword = "Unknown" :=
  C9_missing_keyword_unknown.1 2024 5 [("1", PyVal.vint 10)]
    ⟨"Unknown", ⟨2024, 1, 1⟩, 10⟩ (by decide)

/-- C10: a monthly-mapping key parsing to an integer outside 1..12
produces no record for that cell — the `datetime` failure is caught per
cell — and the remaining cells of the mapping are still processed. -/
theorem C10_out_of_range_month_skipped :
    (∀ (cy cm : Nat) (kw ms : String) (v : PyVal) (m : Int),
      pyParseInt ms = some m → (m < 1 ∨ 12 < m) →
      processCell cy cm kw (ms, v) = none) ∧
    (∀ (cy cm : Nat) (kw : String) (c : String × PyVal) (rest : List (String × PyVal)),
      processCell cy cm kw c = none →
      (c :: rest).filterMap (processCell cy cm kw) = rest.filterMap (processCell cy cm kw)) := by
  refine ⟨?_, ?_⟩
  · intro cy cm kw ms v m hp hm
    have hnm : ¬ (1 ≤ m ∧ m ≤ 12) := by
      rcases hm with hm | hm
      · exact fun h => absurd h.1 (not_le.2 hm)
      · exact fun h => absurd h.2 (not_le.2 hm)
    unfold processCell
    rw [hp]
    simp only
    rw [if_neg hnm]
  · intro cy cm kw c rest hc
    simp [List.filterMap_cons, hc]

/-- C10, witness: month key `"13"` is skipped while the sibling month
`"4"` is still processed. -/
theorem C10_witness :
    processCell 2024 5 "kw" ("13", PyVal.vint 3) = none ∧
    (("13", PyVal.vint 3) :: [("4", PyVal.vint 7)]).filterMap (processCell 2024 5 "kw") =
      [("4", PyVal.vint 7)].filterMap (processCell 2024 5 "kw") := by
  refine ⟨C10_out_of_range_month_skipped.1 2024 5 "kw" "13" (PyVal.vint 3) 13
    (by decide) (by decide), ?_⟩
  exact C10_out_of_range_month_skipped.2 2024 5 "kw" ("13", PyVal.vint 3)
    [("4", PyVal.vint 7)]
    (C10_out_of_range_month_skipped.1 2024 5 "kw" "13" (PyVal.vint 3) 13
      (by decide) (by decide))

end SoV
